import Mathlib

/-!
Shallow embedding of the imgui-rs context lifecycle core (`src/context.rs`).

The wrapper code under verification is `src/context.rs`: the `Context` and
`SuspendedContext` handles, the create / suspend / activate / drop state
machine, the named configuration accessors and the ini-settings passthrough.

The external engine (Dear ImGui, reached through the `sys` FFI surface) is
not part of the reviewed sources; its primitives are modelled from the
spec's engine-contract table (§6).  Raw pointers are modelled as
`Option`-values: `none` is the null pointer, and a non-null string pointer is
identified with the NUL-terminated buffer it points at.  Opaque
engine-context handles are modelled as natural numbers allocated from a
fresh-handle counter.

Every public wrapper operation is a function of the engine state that
returns its result, the new engine state and the trace of primitive events
it performed (lock acquisition/release and engine calls), so that the
locking discipline and call counts are provable properties.
-/

namespace Imgui

/-- Opaque engine-context handle (a non-null `*mut ImGuiContext`). -/
abbrev Handle := Nat

/-- The engine-side per-context field block reachable through the wrapper:
the four raw string fields of the context's `ImGuiIO` and the context's
persisted ini-settings text.  A raw `*const c_char` field is modelled as
`Option String` (`none` = null). -/
structure EngineCtxState where
  IniFilename : Option String := none
  LogFilename : Option String := none
  BackendPlatformName : Option String := none
  BackendRendererName : Option String := none
  settings : String := ""
  deriving DecidableEq

/-- One primitive step performed by a wrapper operation: gate
acquisition/release (`CTX_MUTEX.lock()` and dropping the guard) or a call
into the engine binding surface. -/
inductive Event where
  | lockAcquire
  | lockRelease
  | getCurrentContext
  | setCurrentContext (h : Option Handle)
  | createContext
  | destroyContext (h : Handle)
  | loadIniSettings (data : String)
  | saveIniSettings
  deriving DecidableEq

/-- Modelled from the spec (§6): the engine's global state as visible
through the binding surface — the process-wide current-context pointer
(`none` = null), a fresh-handle counter for context allocation, and the
per-handle field blocks. -/
structure Engine where
  current : Option Handle
  nextHandle : Handle
  io : Handle → EngineCtxState

/-- The `Context` struct of `src/context.rs`: the raw handle plus the four
owned auxiliary string buffers (`Option<ImString>`, modelled as
`Option String`). -/
structure Context where
  raw : Handle
  owned_ini_filename : Option String
  owned_log_filename : Option String
  owned_platform_name : Option String
  owned_renderer_name : Option String
  deriving DecidableEq

/-- The `SuspendedContext` newtype of `src/context.rs`, wrapping exactly one
`Context`. -/
structure SuspendedContext where
  ctx : Context
  deriving DecidableEq

/-- Modelled from the spec (§6): `igCreateContext` allocates a new opaque
context instance and "may implicitly set it as current if none was
current". -/
def igCreateContext (e : Engine) : Handle × Engine :=
  let h := e.nextHandle
  (h, { e with
          nextHandle := h + 1
          current := (match e.current with
            | none => some h
            | some g => some g) })

/-- Modelled from the spec (§6): `igDestroyContext` frees the instance and
"clears global current pointer if it referenced this instance".  The freed
field block is reset to its defaults. -/
def igDestroyContext (h : Handle) (e : Engine) : Engine :=
  { e with
      current := if e.current = some h then none else e.current
      io := fun g => if g = h then {} else e.io g }

/-- Modelled from the spec (§6): `igGetCurrentContext` returns the global
current-context pointer (or null). -/
def igGetCurrentContext (e : Engine) : Option Handle :=
  e.current

/-- Modelled from the spec (§6): `igSetCurrentContext` overwrites the global
current pointer unconditionally. -/
def igSetCurrentContext (v : Option Handle) (e : Engine) : Engine :=
  { e with current := v }

/-- Modelled from the spec (§6, §4.5): `igLoadIniSettingsFromMemory` parses
the persisted settings buffer into the *current* context (a no-op here when
no context is current). -/
def igLoadIniSettingsFromMemory (data : String) (e : Engine) : Engine :=
  match e.current with
  | some h => { e with io := fun g => if g = h then { e.io g with settings := data } else e.io g }
  | none => e

/-- Modelled from the spec (§6, §4.5): `igSaveIniSettingsToMemory`
serializes the *current* context's settings to an engine-owned C string. -/
def igSaveIniSettingsToMemory (e : Engine) : String :=
  match e.current with
  | some h => (e.io h).settings
  | none => ""

/-- `clear_current_context` of `src/context.rs`: sets the engine's current
context to null. -/
def clear_current_context (e : Engine) : Engine :=
  igSetCurrentContext none e

/-- `no_current_context` of `src/context.rs`: true when the engine's
current-context pointer is null. -/
def no_current_context (e : Engine) : Bool :=
  (igGetCurrentContext e).isNone

/-- `Context::is_current_context` of `src/context.rs`: compares `self.raw`
with the engine's current-context pointer. -/
def Context.is_current_context (c : Context) (e : Engine) : Bool :=
  decide (igGetCurrentContext e = some c.raw)

/-- `Context::create_internal` of `src/context.rs`: under the gate, asserts
that no context is current (`none` result = panic), then calls
`igCreateContext` and wraps the handle with all four auxiliary fields
`None`. -/
def Context.create_internal (e : Engine) :
    Option (Context × Engine) × List Event :=
  if no_current_context e then
    let p := igCreateContext e
    (some ({ raw := p.1, owned_ini_filename := none, owned_log_filename := none,
             owned_platform_name := none, owned_renderer_name := none }, p.2),
     [Event.lockAcquire, Event.getCurrentContext, Event.createContext,
      Event.lockRelease])
  else
    (none, [Event.lockAcquire, Event.getCurrentContext, Event.lockRelease])

/-- `Context::create` of `src/context.rs`: delegates to
`create_internal`. -/
def Context.create (e : Engine) : Option (Context × Engine) × List Event :=
  Context.create_internal e

/-- `Context::suspend` of `src/context.rs`: under the gate, asserts that
`self` is the current context (`none` result = panic), clears the current
context and wraps `self` in a `SuspendedContext`. -/
def Context.suspend (c : Context) (e : Engine) :
    Option (SuspendedContext × Engine) × List Event :=
  if c.is_current_context e then
    (some (⟨c⟩, clear_current_context e),
     [Event.lockAcquire, Event.getCurrentContext,
      Event.setCurrentContext none, Event.lockRelease])
  else
    (none, [Event.lockAcquire, Event.getCurrentContext, Event.lockRelease])

/-- `impl Drop for Context` of `src/context.rs`: under the gate, calls
`igDestroyContext` on `self.raw`. -/
def Context.drop (c : Context) (e : Engine) : Engine × List Event :=
  (igDestroyContext c.raw e,
   [Event.lockAcquire, Event.destroyContext c.raw, Event.lockRelease])

/-- Dropping a `SuspendedContext` runs the `Drop` of its single `Context`
field (the newtype has no `Drop` impl of its own in `src/context.rs`). -/
def SuspendedContext.drop (s : SuspendedContext) (e : Engine) :
    Engine × List Event :=
  Context.drop s.ctx e

/-- `SuspendedContext::activate` of `src/context.rs`: under the gate, if no
context is current, installs `self`'s raw handle as current and returns the
inner `Context` as `Ok`; otherwise returns `Err` with the unmodified
`SuspendedContext`. -/
def SuspendedContext.activate (s : SuspendedContext) (e : Engine) :
    Except SuspendedContext Context × Engine × List Event :=
  if no_current_context e then
    (Except.ok s.ctx, igSetCurrentContext (some s.ctx.raw) e,
     [Event.lockAcquire, Event.getCurrentContext,
      Event.setCurrentContext (some s.ctx.raw), Event.lockRelease])
  else
    (Except.error s, e,
     [Event.lockAcquire, Event.getCurrentContext, Event.lockRelease])

/-- `SuspendedContext::create_internal` of `src/context.rs`: under the gate,
calls `igCreateContext` unconditionally; if the engine made the new instance
current, immediately clears the current context; wraps the result. -/
def SuspendedContext.create_internal (e : Engine) :
    (SuspendedContext × Engine) × List Event :=
  let p := igCreateContext e
  let ctx : Context := { raw := p.1, owned_ini_filename := none,
                         owned_log_filename := none,
                         owned_platform_name := none,
                         owned_renderer_name := none }
  if ctx.is_current_context p.2 then
    ((⟨ctx⟩, clear_current_context p.2),
     [Event.lockAcquire, Event.createContext, Event.getCurrentContext,
      Event.setCurrentContext none, Event.lockRelease])
  else
    ((⟨ctx⟩, p.2),
     [Event.lockAcquire, Event.createContext, Event.getCurrentContext,
      Event.lockRelease])

/-- `SuspendedContext::create` of `src/context.rs`: delegates to
`create_internal`. -/
def SuspendedContext.create (e : Engine) :
    (SuspendedContext × Engine) × List Event :=
  SuspendedContext.create_internal e

/-- Modelled from the spec: `Context::io`/`Context::io_mut` are not part of
the reviewed file; per §3 and §4.6 each auxiliary field mirrors "the
engine's corresponding raw string field" of this context's own instance, so
`io` denotes the engine-side field block of `self.raw`. -/
def Context.io (c : Context) (e : Engine) : EngineCtxState :=
  e.io c.raw

/-- Update of the engine-side field block of one handle (the effect of a
write through `Context::io_mut`). -/
def Engine.setIo (e : Engine) (h : Handle)
    (f : EngineCtxState → EngineCtxState) : Engine :=
  { e with io := fun g => if g = h then f (e.io g) else e.io g }

/-- `Context::ini_filename` of `src/context.rs`: null engine field gives
`None`, otherwise the pointed-at string. -/
def Context.ini_filename (c : Context) (e : Engine) : Option String :=
  match (Context.io c e).IniFilename with
  | none => none
  | some s => some s

/-- `Context::set_ini_filename` of `src/context.rs`: points the engine's
`IniFilename` field at the new buffer (or null) and stores the owned buffer
in the `Context`. -/
def Context.set_ini_filename (c : Context) (v : Option String) (e : Engine) :
    Context × Engine :=
  ({ c with owned_ini_filename := v },
   e.setIo c.raw (fun st => { st with IniFilename := v }))

/-- `Context::log_filename` of `src/context.rs`. -/
def Context.log_filename (c : Context) (e : Engine) : Option String :=
  match (Context.io c e).LogFilename with
  | none => none
  | some s => some s

/-- `Context::set_log_filename` of `src/context.rs`. -/
def Context.set_log_filename (c : Context) (v : Option String) (e : Engine) :
    Context × Engine :=
  ({ c with owned_log_filename := v },
   e.setIo c.raw (fun st => { st with LogFilename := v }))

/-- `Context::platform_name` of `src/context.rs`. -/
def Context.platform_name (c : Context) (e : Engine) : Option String :=
  match (Context.io c e).BackendPlatformName with
  | none => none
  | some s => some s

/-- `Context::set_platform_name` of `src/context.rs`. -/
def Context.set_platform_name (c : Context) (v : Option String)
    (e : Engine) : Context × Engine :=
  ({ c with owned_platform_name := v },
   e.setIo c.raw (fun st => { st with BackendPlatformName := v }))

/-- `Context::renderer_name` of `src/context.rs`. -/
def Context.renderer_name (c : Context) (e : Engine) : Option String :=
  match (Context.io c e).BackendRendererName with
  | none => none
  | some s => some s

/-- `Context::set_renderer_name` of `src/context.rs`. -/
def Context.set_renderer_name (c : Context) (v : Option String)
    (e : Engine) : Context × Engine :=
  ({ c with owned_renderer_name := v },
   e.setIo c.raw (fun st => { st with BackendRendererName := v }))

/-- `Context::load_ini_settings` of `src/context.rs`: forwards the buffer to
`igLoadIniSettingsFromMemory` without touching `self.raw` and without
taking the gate. -/
def Context.load_ini_settings (c : Context) (data : String) (e : Engine) :
    Engine × List Event :=
  (igLoadIniSettingsFromMemory data e, [Event.loadIniSettings data])

/-- `Context::save_ini_settings` of `src/context.rs`: appends the engine's
serialized settings for the *current* context to `buf`, without touching
`self.raw` and without taking the gate. -/
def Context.save_ini_settings (c : Context) (buf : String) (e : Engine) :
    String × List Event :=
  (buf ++ igSaveIniSettingsToMemory e, [Event.saveIniSettings])

/-- A trace acquires the gate first, releases it last, and holds it for the
whole body (no other lock event in between) — the locking discipline of
§4.1. -/
def GateBracketed (tr : List Event) : Prop :=
  ∃ body, tr = Event.lockAcquire :: (body ++ [Event.lockRelease]) ∧
    Event.lockAcquire ∉ body ∧ Event.lockRelease ∉ body

/-- C1: `Context::create` panics if and only if the engine already reports a
non-null current-context pointer at the time of the call; when no context is
current it invokes the engine's create-context primitive, the new instance
becomes the engine's current context, and the returned `Context` has all
four auxiliary string fields empty. -/
theorem create_active_spec (e : Engine) :
    ((Context.create e).1 = none ↔ e.current ≠ none) ∧
    (e.current = none →
      Event.createContext ∈ (Context.create e).2 ∧
      (Context.create e).1.map
          (fun p => (decide (p.2.current = some p.1.raw),
            p.1.owned_ini_filename, p.1.owned_log_filename,
            p.1.owned_platform_name, p.1.owned_renderer_name))
        = some (true, none, none, none, none)) := by
  unfold Context.create Context.create_internal no_current_context
    igGetCurrentContext igCreateContext
  cases h : e.current <;> simp [h]

/-- Witness for C1 at concrete inputs: with no current context, `create`
succeeds, calls the engine's create primitive, installs the new instance as
current and returns empty auxiliary fields; with context 5 current, `create`
panics. -/
theorem create_active_spec_witness :
    (Event.createContext ∈ (Context.create ⟨none, 0, fun _ => {}⟩).2 ∧
      (Context.create ⟨none, 0, fun _ => {}⟩).1.map
          (fun p => (decide (p.2.current = some p.1.raw),
            p.1.owned_ini_filename, p.1.owned_log_filename,
            p.1.owned_platform_name, p.1.owned_renderer_name))
        = some (true, none, none, none, none)) ∧
    (Context.create ⟨some 5, 6, fun _ => {}⟩).1 = none :=
  ⟨(create_active_spec ⟨none, 0, fun _ => {}⟩).2 rfl,
   ((create_active_spec ⟨some 5, 6, fun _ => {}⟩).1).2 (by simp)⟩

/-- C2: `SuspendedContext::activate` with no current context returns `Ok`
carrying the same inner `Context` (same raw handle) and makes that handle
the engine's current context; with some context current it returns `Err`
with the original `SuspendedContext` unchanged and mutates nothing. -/
theorem activate_spec (s : SuspendedContext) (e : Engine) :
    (e.current = none →
      (s.activate e).1 = Except.ok s.ctx ∧
      (s.activate e).2.1 = { e with current := some s.ctx.raw }) ∧
    (e.current ≠ none →
      (s.activate e).1 = Except.error s ∧ (s.activate e).2.1 = e) := by
  unfold SuspendedContext.activate no_current_context igGetCurrentContext
    igSetCurrentContext
  cases h : e.current <;> simp [h]

/-- Witness for C2 at concrete inputs: activating suspended handle 3 with no
current context yields `Ok` of the inner context and current = 3; with
handle 7 current it yields `Err` of the unchanged suspended value and an
unchanged engine. -/
theorem activate_spec_witness :
    ((SuspendedContext.activate ⟨⟨3, none, none, none, none⟩⟩
        ⟨none, 4, fun _ => {}⟩).1 = Except.ok ⟨3, none, none, none, none⟩ ∧
      (SuspendedContext.activate ⟨⟨3, none, none, none, none⟩⟩
        ⟨none, 4, fun _ => {}⟩).2.1 = ⟨some 3, 4, fun _ => {}⟩) ∧
    ((SuspendedContext.activate ⟨⟨3, none, none, none, none⟩⟩
        ⟨some 7, 8, fun _ => {}⟩).1
          = Except.error ⟨⟨3, none, none, none, none⟩⟩ ∧
      (SuspendedContext.activate ⟨⟨3, none, none, none, none⟩⟩
        ⟨some 7, 8, fun _ => {}⟩).2.1 = ⟨some 7, 8, fun _ => {}⟩) :=
  ⟨(activate_spec ⟨⟨3, none, none, none, none⟩⟩ ⟨none, 4, fun _ => {}⟩).1 rfl,
   (activate_spec ⟨⟨3, none, none, none, none⟩⟩
      ⟨some 7, 8, fun _ => {}⟩).2 (by simp)⟩

/-- C3: `Context::suspend` asserts that `self.raw` is the engine's current
context (panic when violated); when the assertion holds the engine's
current-context pointer is null afterwards and the result is a
`SuspendedContext` wrapping the very same `Context`. -/
theorem suspend_spec (c : Context) (e : Engine) :
    (e.current = some c.raw →
      (c.suspend e).1 = some (⟨c⟩, { e with current := none })) ∧
    (e.current ≠ some c.raw → (c.suspend e).1 = none) := by
  unfold Context.suspend Context.is_current_context igGetCurrentContext
    clear_current_context igSetCurrentContext
  by_cases h : e.current = some c.raw <;> simp [h]

/-- Witness for C3 at concrete inputs: suspending the context with handle 1
while it is current wraps it unchanged and clears the current pointer;
suspending it while nothing is current panics. -/
theorem suspend_spec_witness :
    (Context.suspend ⟨1, none, none, none, none⟩
        ⟨some 1, 2, fun _ => {}⟩).1
      = some (⟨⟨1, none, none, none, none⟩⟩, ⟨none, 2, fun _ => {}⟩) ∧
    (Context.suspend ⟨1, none, none, none, none⟩
        ⟨none, 2, fun _ => {}⟩).1 = none :=
  ⟨(suspend_spec ⟨1, none, none, none, none⟩ ⟨some 1, 2, fun _ => {}⟩).1 rfl,
   (suspend_spec ⟨1, none, none, none, none⟩ ⟨none, 2, fun _ => {}⟩).2
     (by simp)⟩

/-- C5: round-trip — for a `Context` that is the engine's current context,
`suspend` followed by `activate` succeeds, returns the very same `Context`,
and restores the engine state (in particular the same handle is current
again). -/
theorem suspend_activate_roundtrip (c : Context) (e : Engine)
    (h : e.current = some c.raw) :
    (c.suspend e).1.map
        (fun p => ((p.1.activate p.2).1, (p.1.activate p.2).2.1))
      = some (Except.ok c, e) := by
  cases e with
  | mk cur nh io =>
    cases h
    simp [Context.suspend, Context.is_current_context, igGetCurrentContext,
      clear_current_context, igSetCurrentContext, SuspendedContext.activate,
      no_current_context]

/-- Witness for C5 at a concrete input: suspending the current context with
handle 1 and activating the result returns the same context and the
original engine state. -/
theorem suspend_activate_roundtrip_witness :
    (Context.suspend ⟨1, none, none, none, none⟩
        ⟨some 1, 2, fun _ => {}⟩).1.map
        (fun p => ((p.1.activate p.2).1, (p.1.activate p.2).2.1))
      = some (Except.ok ⟨1, none, none, none, none⟩,
          ⟨some 1, 2, fun _ => {}⟩) :=
  suspend_activate_roundtrip ⟨1, none, none, none, none⟩
    ⟨some 1, 2, fun _ => {}⟩ rfl

/-- C6: dropping a `Context` that is current leaves the engine's
current-context pointer null; dropping a `SuspendedContext` (whose handle
is not current) or a non-current `Context` leaves the pointer unchanged;
in each case the destroy-context primitive appears exactly once in the
trace, applied to the dropped handle. -/
theorem drop_spec (c : Context) (s : SuspendedContext) (e : Engine) :
    (e.current = some c.raw → (c.drop e).1.current = none) ∧
    (e.current ≠ some c.raw → (c.drop e).1.current = e.current) ∧
    (c.drop e).2.count (Event.destroyContext c.raw) = 1 ∧
    (e.current ≠ some s.ctx.raw → (s.drop e).1.current = e.current) ∧
    (s.drop e).2.count (Event.destroyContext s.ctx.raw) = 1 := by
  refine ⟨fun h => ?_, fun h => ?_, ?_, fun h => ?_, ?_⟩ <;>
    simp [Context.drop, SuspendedContext.drop, igDestroyContext,
      List.count_cons, beq_iff_eq, *]

/-- Witness for C6 at concrete inputs: dropping current context 1 nulls the
pointer; dropping non-current context 0 and suspended handle 0 leaves
context 1 current; each trace destroys the dropped handle exactly once. -/
theorem drop_spec_witness :
    (Context.drop ⟨1, none, none, none, none⟩
        ⟨some 1, 2, fun _ => {}⟩).1.current = none ∧
    (Context.drop ⟨0, none, none, none, none⟩
        ⟨some 1, 2, fun _ => {}⟩).1.current = some 1 ∧
    (Context.drop ⟨1, none, none, none, none⟩
        ⟨some 1, 2, fun _ => {}⟩).2.count (Event.destroyContext 1) = 1 ∧
    (SuspendedContext.drop ⟨⟨0, none, none, none, none⟩⟩
        ⟨some 1, 2, fun _ => {}⟩).1.current = some 1 ∧
    (SuspendedContext.drop ⟨⟨0, none, none, none, none⟩⟩
        ⟨some 1, 2, fun _ => {}⟩).2.count (Event.destroyContext 0) = 1 :=
  ⟨(drop_spec ⟨1, none, none, none, none⟩ ⟨⟨0, none, none, none, none⟩⟩
      ⟨some 1, 2, fun _ => {}⟩).1 rfl,
   (drop_spec ⟨0, none, none, none, none⟩ ⟨⟨0, none, none, none, none⟩⟩
      ⟨some 1, 2, fun _ => {}⟩).2.1 (by simp),
   (drop_spec ⟨1, none, none, none, none⟩ ⟨⟨0, none, none, none, none⟩⟩
      ⟨some 1, 2, fun _ => {}⟩).2.2.1,
   (drop_spec ⟨1, none, none, none, none⟩ ⟨⟨0, none, none, none, none⟩⟩
      ⟨some 1, 2, fun _ => {}⟩).2.2.2.1 (by simp),
   (drop_spec ⟨1, none, none, none, none⟩ ⟨⟨0, none, none, none, none⟩⟩
      ⟨some 1, 2, fun _ => {}⟩).2.2.2.2⟩

/-- C7: `SuspendedContext::create` never fails (it is total), always calls
the engine's create-context primitive, and leaves the engine's
current-context pointer exactly as it was before the call.  The hypothesis
states allocator freshness: the handle reported current (if any) was
allocated earlier, so it is below the engine's fresh-handle counter. -/
theorem suspended_create_spec (e : Engine)
    (hwf : e.current.all (fun g => decide (g < e.nextHandle)) = true) :
    (SuspendedContext.create e).1.2.current = e.current ∧
    Event.createContext ∈ (SuspendedContext.create e).2 := by
  unfold SuspendedContext.create SuspendedContext.create_internal
    igCreateContext Context.is_current_context igGetCurrentContext
    clear_current_context igSetCurrentContext
  cases h : e.current with
  | none => simp [h]
  | some g =>
    rw [h] at hwf
    simp only [Option.all_some, decide_eq_true_eq] at hwf
    have hne : g ≠ e.nextHandle := Nat.ne_of_lt hwf
    simp [h, hne]

/-- Witness for C7 at concrete inputs: with context 1 current (and fresh
counter 2) the suspended create leaves 1 current; with no context current
it leaves the pointer null; both traces call create-context. -/
theorem suspended_create_spec_witness :
    ((SuspendedContext.create ⟨some 1, 2, fun _ => {}⟩).1.2.current = some 1 ∧
      Event.createContext ∈
        (SuspendedContext.create ⟨some 1, 2, fun _ => {}⟩).2) ∧
    ((SuspendedContext.create ⟨none, 0, fun _ => {}⟩).1.2.current = none ∧
      Event.createContext ∈
        (SuspendedContext.create ⟨none, 0, fun _ => {}⟩).2) :=
  ⟨suspended_create_spec ⟨some 1, 2, fun _ => {}⟩ (by decide),
   suspended_create_spec ⟨none, 0, fun _ => {}⟩ (by decide)⟩

/-- C4: the invariant "a `SuspendedContext`'s raw handle is never the
engine's current-context pointer" is established by both constructors of
suspended values (`Context::suspend` and `SuspendedContext::create`) and is
preserved by every public operation run on other values, given that the
engine reports the suspended handle not current (`hs`), the suspended
handle was allocated earlier than the engine's fresh-handle counter
(`hfresh`), and a distinct suspended value holds a distinct handle
(`hdist`).  A successful `activate` of `s` itself is the unwrapping step
that ends the invariant's scope. -/
theorem suspended_never_current (e : Engine) (s t : SuspendedContext)
    (c : Context) (v : Option String) (data : String)
    (hs : e.current ≠ some s.ctx.raw)
    (hfresh : s.ctx.raw < e.nextHandle)
    (hdist : t.ctx.raw ≠ s.ctx.raw) :
    (e.current = some c.raw →
      (c.suspend e).1.all
        (fun p => !decide (p.2.current = some p.1.ctx.raw)) = true) ∧
    (SuspendedContext.create e).1.2.current
        ≠ some (SuspendedContext.create e).1.1.ctx.raw ∧
    (Context.create e).1.all
        (fun p => !decide (p.2.current = some s.ctx.raw)) = true ∧
    (SuspendedContext.create e).1.2.current ≠ some s.ctx.raw ∧
    (c.suspend e).1.all
        (fun p => !decide (p.2.current = some s.ctx.raw)) = true ∧
    (t.activate e).2.1.current ≠ some s.ctx.raw ∧
    (c.drop e).1.current ≠ some s.ctx.raw ∧
    ((c.set_ini_filename v e).2.current = e.current ∧
      (c.set_log_filename v e).2.current = e.current ∧
      (c.set_platform_name v e).2.current = e.current ∧
      (c.set_renderer_name v e).2.current = e.current ∧
      (c.load_ini_settings data e).1.current = e.current) := by
  refine ⟨fun h => ?_, ?_, ?_, ?_, ?_, ?_, ?_, ?_, ?_, ?_, ?_, ?_⟩
  · simp [Context.suspend, Context.is_current_context, igGetCurrentContext,
      clear_current_context, igSetCurrentContext, h]
  · unfold SuspendedContext.create SuspendedContext.create_internal
      igCreateContext Context.is_current_context igGetCurrentContext
      clear_current_context igSetCurrentContext
    cases h : e.current with
    | none => simp [h]
    | some g =>
      by_cases hg : g = e.nextHandle
      · simp [h, hg]
      · simp [h, hg]
  · unfold Context.create Context.create_internal no_current_context
      igGetCurrentContext igCreateContext
    cases h : e.current with
    | none =>
      have hne : e.nextHandle ≠ s.ctx.raw := ne_of_gt hfresh
      simp [h, hne]
    | some g => simp [h]
  · unfold SuspendedContext.create SuspendedContext.create_internal
      igCreateContext Context.is_current_context igGetCurrentContext
      clear_current_context igSetCurrentContext
    cases h : e.current with
    | none => simp [h]
    | some g =>
      by_cases hg : g = e.nextHandle
      · simp [h, hg]
      · rw [h] at hs
        simp [h, hg]
        simpa using hs
  · by_cases h : e.current = some c.raw
    · simp [Context.suspend, Context.is_current_context, igGetCurrentContext,
        clear_current_context, igSetCurrentContext, h]
    · simp [Context.suspend, Context.is_current_context, igGetCurrentContext,
        h]
  · unfold SuspendedContext.activate no_current_context igGetCurrentContext
      igSetCurrentContext
    cases h : e.current with
    | none =>
      simp only [Option.isNone_none, if_true]
      simpa using hdist
    | some g =>
      rw [h] at hs
      simp [h]
      simpa using hs
  · unfold Context.drop igDestroyContext
    by_cases h : e.current = some c.raw
    · simp [h]
    · simpa [h] using hs
  · simp [Context.set_ini_filename, Engine.setIo]
  · simp [Context.set_log_filename, Engine.setIo]
  · simp [Context.set_platform_name, Engine.setIo]
  · simp [Context.set_renderer_name, Engine.setIo]
  · unfold Context.load_ini_settings igLoadIniSettingsFromMemory
    cases h : e.current <;> simp [h]

/-- Witness for C4 at concrete inputs: engine with context 1 current and
fresh counter 2, suspended value holding handle 0, second suspended value
and active context holding handle 1. -/
theorem suspended_never_current_witness :
    (Context.suspend ⟨1, none, none, none, none⟩
        ⟨some 1, 2, fun _ => {}⟩).1.all
        (fun p => !decide (p.2.current = some p.1.ctx.raw)) = true ∧
    (SuspendedContext.create ⟨some 1, 2, fun _ => {}⟩).1.2.current
        ≠ some (SuspendedContext.create
            ⟨some 1, 2, fun _ => {}⟩).1.1.ctx.raw ∧
    (Context.create ⟨some 1, 2, fun _ => {}⟩).1.all
        (fun p => !decide (p.2.current = some 0)) = true ∧
    (SuspendedContext.create ⟨some 1, 2, fun _ => {}⟩).1.2.current
        ≠ some 0 ∧
    (Context.suspend ⟨1, none, none, none, none⟩
        ⟨some 1, 2, fun _ => {}⟩).1.all
        (fun p => !decide (p.2.current = some 0)) = true ∧
    (SuspendedContext.activate ⟨⟨1, none, none, none, none⟩⟩
        ⟨some 1, 2, fun _ => {}⟩).2.1.current ≠ some 0 ∧
    (Context.drop ⟨1, none, none, none, none⟩
        ⟨some 1, 2, fun _ => {}⟩).1.current ≠ some 0 ∧
    ((Context.set_ini_filename ⟨1, none, none, none, none⟩ (some "a")
        ⟨some 1, 2, fun _ => {}⟩).2.current = some 1 ∧
      (Context.set_log_filename ⟨1, none, none, none, none⟩ (some "a")
        ⟨some 1, 2, fun _ => {}⟩).2.current = some 1 ∧
      (Context.set_platform_name ⟨1, none, none, none, none⟩ (some "a")
        ⟨some 1, 2, fun _ => {}⟩).2.current = some 1 ∧
      (Context.set_renderer_name ⟨1, none, none, none, none⟩ (some "a")
        ⟨some 1, 2, fun _ => {}⟩).2.current = some 1 ∧
      (Context.load_ini_settings ⟨1, none, none, none, none⟩ "d"
        ⟨some 1, 2, fun _ => {}⟩).1.current = some 1) := by
  have h := suspended_never_current ⟨some 1, 2, fun _ => {}⟩
    ⟨⟨0, none, none, none, none⟩⟩ ⟨⟨1, none, none, none, none⟩⟩
    ⟨1, none, none, none, none⟩ (some "a") "d"
    (by simp) (by decide) (by decide)
  exact ⟨h.1 rfl, h.2.1, h.2.2.1, h.2.2.2.1, h.2.2.2.2.1, h.2.2.2.2.2.1,
    h.2.2.2.2.2.2.1, h.2.2.2.2.2.2.2⟩

/-- C8: for each of the four named configuration accessors — the getter
returns `none` iff the engine's corresponding raw field is null; the setter
stores the owned buffer in the matching `Context` field and makes the
engine's raw field point at that buffer (or null for `none`); hence reading
right after setting yields the value just set, so setting then clearing
toggles the getter between `some value` and `none`. -/
theorem named_accessor_spec (c : Context) (e : Engine) (w : Option String) :
    (c.ini_filename e = none ↔ (Context.io c e).IniFilename = none) ∧
    (c.set_ini_filename w e).1.owned_ini_filename = w ∧
    ((c.set_ini_filename w e).2.io c.raw).IniFilename = w ∧
    Context.ini_filename (c.set_ini_filename w e).1
      (c.set_ini_filename w e).2 = w ∧
    (c.log_filename e = none ↔ (Context.io c e).LogFilename = none) ∧
    (c.set_log_filename w e).1.owned_log_filename = w ∧
    ((c.set_log_filename w e).2.io c.raw).LogFilename = w ∧
    Context.log_filename (c.set_log_filename w e).1
      (c.set_log_filename w e).2 = w ∧
    (c.platform_name e = none ↔ (Context.io c e).BackendPlatformName = none) ∧
    (c.set_platform_name w e).1.owned_platform_name = w ∧
    ((c.set_platform_name w e).2.io c.raw).BackendPlatformName = w ∧
    Context.platform_name (c.set_platform_name w e).1
      (c.set_platform_name w e).2 = w ∧
    (c.renderer_name e = none ↔ (Context.io c e).BackendRendererName = none) ∧
    (c.set_renderer_name w e).1.owned_renderer_name = w ∧
    ((c.set_renderer_name w e).2.io c.raw).BackendRendererName = w ∧
    Context.renderer_name (c.set_renderer_name w e).1
      (c.set_renderer_name w e).2 = w := by
  cases w <;>
    · refine ⟨?_, ?_, ?_, ?_, ?_, ?_, ?_, ?_, ?_, ?_, ?_, ?_, ?_, ?_, ?_, ?_⟩ <;>
      · first
        | (constructor <;>
            · simp [Context.ini_filename, Context.log_filename,
                Context.platform_name, Context.renderer_name, Context.io]
              split <;> simp_all)
        | simp [Context.set_ini_filename, Context.set_log_filename,
            Context.set_platform_name, Context.set_renderer_name,
            Context.ini_filename, Context.log_filename,
            Context.platform_name, Context.renderer_name,
            Context.io, Engine.setIo]

/-- C9: each operation of §4.2–4.4 — both create paths, suspend, activate
and Drop — acquires the process-wide gate as its first step, releases it as
its last step before returning, and performs no other lock operation in
between, so every inspection or mutation of the engine's current-context
pointer by these operations happens with the gate held. -/
theorem gate_discipline (e : Engine) (c : Context) (s : SuspendedContext) :
    GateBracketed (Context.create e).2 ∧
    GateBracketed (SuspendedContext.create e).2 ∧
    GateBracketed (c.suspend e).2 ∧
    GateBracketed (s.activate e).2.2 ∧
    GateBracketed (c.drop e).2 := by
  refine ⟨?_, ?_, ?_, ?_, ?_⟩
  · unfold Context.create Context.create_internal
    rcases Bool.eq_false_or_eq_true (no_current_context e) with h | h
    · simp [h]
      exact ⟨[Event.getCurrentContext, Event.createContext], by simp⟩
    · simp [h]
      exact ⟨[Event.getCurrentContext], by simp⟩
  · unfold SuspendedContext.create SuspendedContext.create_internal
    rcases Bool.eq_false_or_eq_true (Context.is_current_context
        ⟨(igCreateContext e).1, none, none, none, none⟩
        (igCreateContext e).2) with h | h
    · simp [h]
      exact ⟨[Event.createContext, Event.getCurrentContext,
        Event.setCurrentContext none], by simp⟩
    · simp [h]
      exact ⟨[Event.createContext, Event.getCurrentContext], by simp⟩
  · unfold Context.suspend
    rcases Bool.eq_false_or_eq_true (c.is_current_context e) with h | h
    · simp [h]
      exact ⟨[Event.getCurrentContext, Event.setCurrentContext none],
        by simp⟩
    · simp [h]
      exact ⟨[Event.getCurrentContext], by simp⟩
  · unfold SuspendedContext.activate
    rcases Bool.eq_false_or_eq_true (no_current_context e) with h | h
    · simp [h]
      exact ⟨[Event.getCurrentContext,
        Event.setCurrentContext (some s.ctx.raw)], by simp⟩
    · simp [h]
      exact ⟨[Event.getCurrentContext], by simp⟩
  · exact ⟨[Event.destroyContext c.raw], by simp [Context.drop]⟩

/-- C10: `load_ini_settings` and `save_ini_settings` never consult the
receiver's raw handle (their output is the same for any receiver), they
forward to the engine's global settings primitives — which act on the
engine's *current* context, here `h`, and not on the receiver's own
non-current handle — and neither trace contains a gate acquisition. -/
theorem ini_settings_passthrough (c c2 : Context) (e : Engine)
    (d buf : String) (h : Handle)
    (hcur : e.current = some h) (hne : c.raw ≠ h) :
    c.load_ini_settings d e = c2.load_ini_settings d e ∧
    c.save_ini_settings buf e = c2.save_ini_settings buf e ∧
    ((c.load_ini_settings d e).1.io h).settings = d ∧
    ((c.load_ini_settings d e).1.io c.raw).settings
      = (e.io c.raw).settings ∧
    (c.save_ini_settings buf e).1 = buf ++ (e.io h).settings ∧
    Event.lockAcquire ∉ (c.load_ini_settings d e).2 ∧
    Event.lockAcquire ∉ (c.save_ini_settings buf e).2 := by
  refine ⟨rfl, rfl, ?_, ?_, ?_, ?_, ?_⟩ <;>
    simp [Context.load_ini_settings, Context.save_ini_settings,
      igLoadIniSettingsFromMemory, igSaveIniSettingsToMemory, hcur, hne]

/-- Witness for C10 at concrete inputs: receiver with handle 0, current
context 1; loading writes handle 1's settings, saving appends them, no gate
event occurs, and a receiver with handle 5 gets identical results. -/
theorem ini_settings_passthrough_witness :
    Context.load_ini_settings ⟨0, none, none, none, none⟩ "ini"
        ⟨some 1, 2, fun _ => {}⟩
      = Context.load_ini_settings ⟨5, none, none, none, none⟩ "ini"
        ⟨some 1, 2, fun _ => {}⟩ ∧
    Context.save_ini_settings ⟨0, none, none, none, none⟩ "b"
        ⟨some 1, 2, fun _ => {}⟩
      = Context.save_ini_settings ⟨5, none, none, none, none⟩ "b"
        ⟨some 1, 2, fun _ => {}⟩ ∧
    ((Context.load_ini_settings ⟨0, none, none, none, none⟩ "ini"
        ⟨some 1, 2, fun _ => {}⟩).1.io 1).settings = "ini" ∧
    ((Context.load_ini_settings ⟨0, none, none, none, none⟩ "ini"
        ⟨some 1, 2, fun _ => {}⟩).1.io 0).settings
      = ((⟨some 1, 2, fun _ => {}⟩ : Engine).io 0).settings ∧
    (Context.save_ini_settings ⟨0, none, none, none, none⟩ "b"
        ⟨some 1, 2, fun _ => {}⟩).1
      = "b" ++ ((⟨some 1, 2, fun _ => {}⟩ : Engine).io 1).settings ∧
    Event.lockAcquire ∉ (Context.load_ini_settings
        ⟨0, none, none, none, none⟩ "ini" ⟨some 1, 2, fun _ => {}⟩).2 ∧
    Event.lockAcquire ∉ (Context.save_ini_settings
        ⟨0, none, none, none, none⟩ "b" ⟨some 1, 2, fun _ => {}⟩).2 :=
  ini_settings_passthrough ⟨0, none, none, none, none⟩
    ⟨5, none, none, none, none⟩ ⟨some 1, 2, fun _ => {}⟩ "ini" "b" 1
    rfl (by decide)

end Imgui
